import Mathlib

/-!
Shallow embedding of `src/conntable_v2.c`, a connection-pool hash table
for reusable network connections keyed by (IPv4 literal, port).

Pointers to caller-owned connection nodes are modelled by a heap of
numbered nodes (`Sys.nodes`); pools live in the table (`Sys.pools`) and
are referenced by a pool id, mirroring the `connp->pool` back-pointer.
The hash-bucket array is abstracted to a list of pools: lookup compares
`(port, ip)` exactly as the source does at conntable_v2.c:296, which is
observationally equivalent for a deterministic hash.  Kernel error
pointers (`ERR_PTR` / `IS_ERR`) are modelled by small integer pointer
values so that the source's conversions are reproduced bit-for-bit.
Jiffies are a `Nat` parameter threaded through the operations.
-/

namespace Conntable

/-- Connection states, from `conn_state_t` as used in conntable_v2.c. -/
inductive ConnState where
  | DOWN
  | READY
  | ACTIVE
  | RETRY
  | FAILED
  | ZOMBIE
deriving DecidableEq, Repr

/-- Operation tag for latency accounting, `conn_op_t`. -/
inductive ConnOp where
  | GET
  | PUT
deriving DecidableEq, Repr

/- Linux error numbers used by the source. -/
def ENOENT : Int := 2
def ENOMEM : Int := 12
def EBUSY : Int := 16
def EINVAL : Int := 22
def EPIPE : Int := 32

/-- Kernel `IS_ERR` on a pointer value modelled as a signed integer:
true exactly for values in `[-4095, -1]` (the top 4095 addresses). -/
def IS_ERR_val (p : Int) : Bool := -4095 ≤ p && p ≤ -1

/-- Split a character list at every occurrence of the separator. -/
def splitChar (c : Char) : List Char → List (List Char)
  | [] => [[]]
  | x :: xs =>
    if x = c then [] :: splitChar c xs
    else
      match splitChar c xs with
      | [] => [[x]]
      | g :: gs => (x :: g) :: gs

/-- Model of the external kernel helper `in4_pton` restricted to how the
source calls it (NUL delimiter, full-length parse): accepts exactly
dotted-quad IPv4 literals `a.b.c.d` with each component 1-3 digits and
value at most 255. -/
def in4_pton_ok (s : String) : Bool :=
  let parts := splitChar '.' s.data
  parts.length = 4 && parts.all (fun p =>
    0 < p.length && p.length ≤ 3 && p.all Char.isDigit &&
    p.foldl (fun a c => a * 10 + (c.toNat - 48)) 0 ≤ 255)

/-- Deterministic stand-in for the external `jhash_2words`-based
`hashfn` (conntable_v2.c:28); the table's behaviour only depends on the
hash being a function of (ip, port). -/
def hashfn (ip : String) (port : Nat) : Nat :=
  (ip.data.foldl (fun h c => h * 31 + c.toNat) 7) * 65599 + port

/-- Model of `ipv4_hash32` (conntable_v2.c:44): `some key` on a valid dotted-quad
literal, `none` for the `-EINVAL` branch. -/
def ipv4_hash32 (ip : String) (port : Nat) : Option Nat :=
  if in4_pton_ok ip then some (hashfn ip port) else none

/-- Model of `struct cacheobj_connection_node`: one reusable connection.
`locked` is the CONN_LOCKED bit of `flags`; `pool` is the back-pointer
to the owning pool (by pool id). -/
structure ConnNode where
  ip : String
  port : Nat
  state : ConnState
  locked : Bool
  pool : Option Nat
  now_js : Nat
  nr_lookups : Nat
  tot_js_get : Nat
  tot_js_put : Nat
  tot_js_wait : Nat
deriving DecidableEq, Repr

/-- Model of `struct cacheobj_connection_pool`.  `conn_list` holds node ids in
list order (`list_add` prepends).  The counters are kernel `atomic_t`
(machine ints), modelled as `Int` since the source can drive them
negative. -/
structure Pool where
  pid : Nat
  ip : String
  port : Nat
  key : Nat
  conn_list : List Nat
  nr_connections : Int
  nr_idle_connections : Int
  upref : Int
  nr_waits : Nat
  waiters : Nat
deriving DecidableEq, Repr

/-- Whole-system state: the heap of caller-owned nodes and the hash
table's pools. -/
structure Sys where
  nodes : List (Nat × ConnNode)
  pools : List Pool
  nextPid : Nat
deriving DecidableEq, Repr

def Sys.getNode (s : Sys) (id : Nat) : Option ConnNode :=
  (s.nodes.find? (fun kv => kv.1 = id)).map (fun kv => kv.2)

def Sys.setNode (s : Sys) (id : Nat) (n : ConnNode) : Sys :=
  { s with nodes := s.nodes.map (fun kv => if kv.1 = id then (id, n) else kv) }

def Sys.getPool (s : Sys) (pid : Nat) : Option Pool :=
  s.pools.find? (fun p => p.pid = pid)

def Sys.setPool (s : Sys) (pid : Nat) (p : Pool) : Sys :=
  { s with pools := s.pools.map (fun q => if q.pid = pid then p else q) }

/-- Number of nodes on a pool's `conn_list` whose state is READY,
resolved through the heap (the quantity `nr_idle_connections` is
supposed to track). -/
def Sys.readyCount (s : Sys) (p : Pool) : Nat :=
  (p.conn_list.filter (fun id =>
    match s.getNode id with
    | some n => n.state = ConnState.READY
    | none => false)).length

/-- Kernel `test_and_set_bit_lock(CONN_LOCKED, &flags)`: returns the
old bit value and the node with the bit set. -/
def conn_trylock (n : ConnNode) : Bool × ConnNode :=
  (n.locked, { n with locked := true })

/-- Kernel `clear_bit_unlock(CONN_LOCKED, &flags)`. -/
def conn_unlock (n : ConnNode) : ConnNode :=
  { n with locked := false }

/-- Outcome of an operation that can trip a `CONNTBL_ASSERT` or
dereference a garbage pointer. -/
inductive OpRes where
  | ok
  | err (e : Int)
  | assertFail
  | wildDeref (addr : Int)
deriving DecidableEq, Repr

/-- Model of `cacheobj_connection_node_init` (conntable_v2.c:95): adds a fresh
node to the heap with state DOWN, flags 0, no pool, zeroed stats.
(The `kstrdup` OOM branch is not material to any claim and is elided:
the model's allocation of the ip string always succeeds.) -/
def cacheobj_connection_node_init (s : Sys) (id : Nat) (ip : String)
    (port : Nat) : Sys :=
  { s with nodes := s.nodes ++ [(id,
      { ip := ip, port := port, state := ConnState.DOWN, locked := false,
        pool := none, now_js := 0, nr_lookups := 0, tot_js_get := 0,
        tot_js_put := 0, tot_js_wait := 0 })] }

/-- State of a node inside `cacheobj_connection_node_failed` after the
`clear_bit_unlock` at conntable_v2.c:137 has executed but before the
store `connp->state = CONN_FAILED` at line 138.  The source emits the
unlock first, so this intermediate state is visible to any other task
that acquires CONN_LOCKED between the two lines. -/
def markFailed_afterUnlock (n : ConnNode) : ConnNode :=
  conn_unlock n

/-- State of the node after the store at conntable_v2.c:138 completes. -/
def markFailed_afterStore (n : ConnNode) : ConnNode :=
  { markFailed_afterUnlock n with state := ConnState.FAILED }

/-- Model of `cacheobj_connection_node_failed` (conntable_v2.c:131): asserts the
node is already locked, then (in source order) releases CONN_LOCKED and
stores FAILED; asserts if the state was neither ACTIVE nor RETRY. -/
def cacheobj_connection_node_failed (s : Sys) (id : Nat) : Sys × OpRes :=
  match s.getNode id with
  | none => (s, OpRes.assertFail)
  | some n =>
    if !(conn_trylock n).1 then (s, OpRes.assertFail)
    else if n.state = ConnState.ACTIVE || n.state = ConnState.RETRY then
      (s.setNode id (markFailed_afterStore n), OpRes.ok)
    else (s, OpRes.assertFail)

/-- Model of `cacheobj_connection_node_retry` (conntable_v2.c:147): asserts the
lock was free, acquires it (side effect of the assert's
`test_and_set_bit_lock`), and stores RETRY without touching any pool
counter. -/
def cacheobj_connection_node_retry (s : Sys) (id : Nat) : Sys × OpRes :=
  match s.getNode id with
  | none => (s, OpRes.assertFail)
  | some n =>
    if (conn_trylock n).1 then (s, OpRes.assertFail)
    else (s.setNode id { n with locked := true, state := ConnState.RETRY },
          OpRes.ok)

/-- Model of `cacheobj_connection_node_ready` (conntable_v2.c:157): no-op unless
the state is RETRY; otherwise asserts the lock is held, stores READY and
releases the lock.  Note: the pool's `nr_idle_connections` is not
incremented. -/
def cacheobj_connection_node_ready (s : Sys) (id : Nat) : Sys × OpRes :=
  match s.getNode id with
  | none => (s, OpRes.assertFail)
  | some n =>
    if n.state ≠ ConnState.RETRY then (s, OpRes.ok)
    else if !(conn_trylock n).1 then (s, OpRes.assertFail)
    else (s.setNode id { n with state := ConnState.READY, locked := false },
          OpRes.ok)

/-- Result of `__connection_pool_alloc`: either a real pool or the
pointer value `ERR_PTR(-err)` that the source manufactures on failure.
Because `err` is already negative (`-ENOMEM` / `-EINVAL`), `-err` is
positive and the returned value is a small positive address, not an
error pointer. -/
inductive PoolAllocRes where
  | ptr (p : Pool)
  | errval (v : Int)
deriving DecidableEq, Repr

def PoolAllocRes.isErrPtr : PoolAllocRes → Bool
  | PoolAllocRes.ptr _ => false
  | PoolAllocRes.errval v => IS_ERR_val v

/-- Model of `__connection_pool_alloc` (conntable_v2.c:181).  `allocOk` and
`strdupOk` model the success of the external `kzalloc` / `kstrdup`
allocations.  The failure branches return `ERR_PTR(-err)` with `err`
set to `-ENOMEM` / `-EINVAL`, i.e. the pointer values `12` and `22`. -/
def connection_pool_alloc (s : Sys) (allocOk strdupOk : Bool)
    (ip : String) (port : Nat) : PoolAllocRes :=
  if !allocOk then PoolAllocRes.errval (-(-ENOMEM))
  else if !strdupOk then PoolAllocRes.errval (-(-ENOMEM))
  else
    match ipv4_hash32 ip port with
    | none => PoolAllocRes.errval (-(-EINVAL))
    | some key =>
      PoolAllocRes.ptr
        { pid := s.nextPid, ip := ip, port := port, key := key,
          conn_list := [], nr_connections := 0, nr_idle_connections := 0,
          upref := 0, nr_waits := 0, waiters := 0 }

/-- Result of `__get_connection_pool`: the `ERR_PTR(-EINVAL)` pointer
value, NULL, or a pool (by id). -/
inductive LookupRes where
  | errptr (v : Int)
  | null
  | found (pid : Nat)
deriving DecidableEq, Repr

/-- Model of `__get_connection_pool` (conntable_v2.c:285): `ERR_PTR(-EINVAL)` on
a bad ip literal, otherwise the first pool whose `(port, ip)` matches
(line 296), or NULL. -/
def get_connection_pool (s : Sys) (ip : String) (port : Nat) : LookupRes :=
  match ipv4_hash32 ip port with
  | none => LookupRes.errptr (-EINVAL)
  | some _ =>
    match s.pools.find? (fun p => p.port = port && p.ip = ip) with
    | some p => LookupRes.found p.pid
    | none => LookupRes.null

/-- Model of `connectionpool_hashtable_insert` (conntable_v2.c:309).
`race` models the actions of other writers during the window at lines
319-326 in which the table write lock is dropped for the pool
allocation; single-threaded callers pass `fun s => s`.  The source adds
the freshly allocated pool unconditionally after re-locking (line 327),
with no re-lookup.  Attachment (lines 330-348): set the back-pointer,
prepend to `conn_list`, bump `nr_connections`, set state READY, bump
`nr_idle_connections`, and take/drop `upref` around the wakeup. -/
def connectionpool_hashtable_insert (s : Sys) (race : Sys → Sys)
    (allocOk strdupOk : Bool) (id : Nat) : Sys × OpRes :=
  match s.getNode id with
  | none => (s, OpRes.assertFail)   -- CONNTBL_ASSERT(connp)
  | some connp =>
    -- write_lock; __get_connection_pool
    let afterLookup : Sys × Option (Int × Nat) :=
      match get_connection_pool s connp.ip connp.port with
      | LookupRes.errptr v => (s, some (v, 0))       -- flows to the IS_ERR assert
      | LookupRes.found pid => (s, some (0, pid))    -- pool present
      | LookupRes.null =>
        -- write_unlock; other writers run; allocate; write_lock
        let s1 := race s
        match connection_pool_alloc s1 allocOk strdupOk connp.ip connp.port with
        | PoolAllocRes.errval v =>
          if IS_ERR_val v then (s1, none)            -- `return -ENOMEM` (line 323)
          else (s1, some (v, 0))                     -- undetected garbage pointer
        | PoolAllocRes.ptr p =>
          -- hash_add(table->buckets, &pool->hentry, pool->key) (line 327)
          ({ s1 with pools := p :: s1.pools, nextPid := s1.nextPid + 1 },
           some (0, p.pid))
    match afterLookup with
    | (s1, none) => (s1, OpRes.err (-ENOMEM))
    | (s1, some (v, pid)) =>
      if v ≠ 0 then
        -- the pool pointer here is a raw integer value v
        if IS_ERR_val v then (s1, OpRes.assertFail)  -- CONNTBL_ASSERT(!IS_ERR(pool))
        else (s1, OpRes.wildDeref v)                 -- hash_add / list_add dereference v
      else
        match s1.getPool pid with
        | none => (s1, OpRes.wildDeref 0)
        | some p =>
          let connp' := { connp with pool := some pid, state := ConnState.READY }
          let p' := { p with conn_list := id :: p.conn_list,
                             nr_connections := p.nr_connections + 1,
                             nr_idle_connections := p.nr_idle_connections + 1,
                             upref := p.upref + 1 }
          let s2 := (s1.setNode id connp').setPool pid p'
          -- write_unlock; wake_up; atomic_dec(&pool->upref)
          match s2.getPool pid with
          | none => (s2, OpRes.wildDeref 0)
          | some p2 =>
            (s2.setPool pid { p2 with upref := p2.upref - 1 }, OpRes.ok)

/-- Model of `__connection_remove` (conntable_v2.c:355): claim CONN_LOCKED or
fail with `-EBUSY`; assert the back-pointer exists and the state is not
ACTIVE; if READY, decrement `nr_idle_connections` and mark ZOMBIE;
unlink from `conn_list` and decrement `nr_connections`.  The node stays
in the heap (caller-owned) with CONN_LOCKED still set: nothing in the
function releases the bit. -/
def connection_remove (s : Sys) (id : Nat) : Sys × OpRes :=
  match s.getNode id with
  | none => (s, OpRes.wildDeref 0)
  | some n =>
    if (conn_trylock n).1 then (s, OpRes.err (-EBUSY))
    else
      let n1 := (conn_trylock n).2
      match n1.pool with
      | none => (s, OpRes.assertFail)          -- CONNTBL_ASSERT(pool)
      | some ppid =>
        match s.getPool ppid with
        | none => (s, OpRes.wildDeref 0)
        | some p =>
          if n1.state = ConnState.ACTIVE then (s, OpRes.assertFail)
          else
            let (n2, p1) :=
              if n1.state = ConnState.READY then
                ({ n1 with state := ConnState.ZOMBIE },
                 { p with nr_idle_connections := p.nr_idle_connections - 1 })
              else (n1, p)
            let p2 := { p1 with conn_list := p1.conn_list.filter (fun i => i ≠ id),
                                nr_connections := p1.nr_connections - 1 }
            ((s.setNode id n2).setPool ppid p2, OpRes.ok)

/-- Model of `connectionpool_hashtable_remove` (conntable_v2.c:389): the write
lock around `__connection_remove` adds nothing in the sequential
model. -/
def connectionpool_hashtable_remove (s : Sys) (id : Nat) : Sys × OpRes :=
  connection_remove s id

/-- Result of the `connection_get` scan. -/
inductive GetScanRes where
  | node (id : Nat)
  | errv (e : Int)
  | fault
deriving DecidableEq, Repr

/-- The list walk of `connection_get` (conntable_v2.c:461-480).  `apd`
is the `all paths down` hint, cleared when a locked node is skipped.
A node that is locked-then-found-non-READY is restored by
`clear_bit_unlock`, a net no-op on the heap. -/
def connection_get_scan (s : Sys) (pid : Nat) (ids : List Nat)
    (apd : Bool) (now_js now : Nat) : Sys × GetScanRes :=
  match ids with
  | [] =>
    -- error path (conntable_v2.c:483-495); the scan has not changed
    -- the pool's conn_list, so list_empty reads the original list
    (s, match s.getPool pid with
        | none => GetScanRes.fault
        | some p =>
          if p.conn_list.isEmpty then GetScanRes.errv (-ENOENT)
          else if apd then GetScanRes.errv (-EPIPE)
          else GetScanRes.errv (-EBUSY))
  | id :: rest =>
    match s.getNode id with
    | none => (s, GetScanRes.fault)
    | some n =>
      if (conn_trylock n).1 then
        connection_get_scan s pid rest false now_js now
      else if n.state = ConnState.READY then
        -- got ownership of a READY node: claim it (lines 467-476)
        match n.pool with
        | none => (s, GetScanRes.fault)          -- connp->pool dereference
        | some ppid =>
          match s.getPool ppid with
          | none => (s, GetScanRes.fault)
          | some p =>
            let n' := { n with locked := true, state := ConnState.ACTIVE,
                               tot_js_wait := n.tot_js_wait + (now - now_js),
                               now_js := now,
                               nr_lookups := n.nr_lookups + 1 }
            let p' := { p with nr_idle_connections := p.nr_idle_connections - 1 }
            ((s.setNode id n').setPool ppid p', GetScanRes.node id)
      else
        connection_get_scan s pid rest apd now_js now

/-- Model of `connection_get` (conntable_v2.c:454): scan the pool's list with
`apd` initially true. -/
def connection_get (s : Sys) (pid : Nat) (now_js now : Nat) :
    Sys × GetScanRes :=
  match s.getPool pid with
  | none => (s, GetScanRes.fault)
  | some p => connection_get_scan s pid p.conn_list true now_js now

/-- Model of `connection_node_update_jiffies` (conntable_v2.c:74): accumulate
`now - now_js` into the counter selected by `op`. -/
def connection_node_update_jiffies (n : ConnNode) (op : ConnOp)
    (now : Nat) : ConnNode :=
  match op with
  | ConnOp.GET => { n with tot_js_get := n.tot_js_get + (now - n.now_js) }
  | ConnOp.PUT => { n with tot_js_put := n.tot_js_put + (now - n.now_js) }

/-- Model of `connection_put` (conntable_v2.c:578).  ACTIVE: account latency per
`op`, store READY, take `upref`, bump `nr_idle_connections`, release
CONN_LOCKED, wake one waiter, drop `upref`.  Any other state: release
CONN_LOCKED only. -/
def connection_put (s : Sys) (id : Nat) (op : ConnOp) (now : Nat) :
    Sys × OpRes :=
  match s.getNode id with
  | none => (s, OpRes.wildDeref 0)
  | some n =>
    if n.state = ConnState.ACTIVE then
      match n.pool with
      | none => (s, OpRes.wildDeref 0)                 -- connp->pool dereference
      | some ppid =>
        match s.getPool ppid with
        | none => (s, OpRes.wildDeref 0)
        | some p =>
          let n1 := connection_node_update_jiffies n op now
          let n2 := { n1 with state := ConnState.READY }
          let p1 := { p with upref := p.upref + 1,
                             nr_idle_connections := p.nr_idle_connections + 1 }
          let n3 := conn_unlock n2
          -- wake_up_interruptible; atomic_dec(&pool->upref)
          let p2 := { p1 with upref := p1.upref - 1 }
          ((s.setNode id n3).setPool ppid p2, OpRes.ok)
    else
      (s.setNode id (conn_unlock n), OpRes.ok)

/-- Model of the external `wait_event_interruptible_timeout` under the
environment of the claims: no concurrent wake changes the condition
while we sleep and no signal arrives.  Condition false: the full
timeout elapses and 0 is returned (also immediately when the remaining
timeout is already 0).  Condition true: the call returns without
sleeping, with the remaining timeout (at least 1). -/
def wait_no_signal (cond : Bool) (t : Int) : Int :=
  if cond then (if t ≤ 0 then 1 else t) else 0

/-- Result of `connection_timed_get`. -/
inductive TGRes where
  | node (id : Nat)
  | nullRet
  | errRet (e : Int)
  | assertFail
  | fault
  | fuelOut
deriving DecidableEq, Repr

/-- The retry loop of `connection_timed_get` (conntable_v2.c:517-561),
with fuel bounding the number of iterations we observe; `TGRes.fuelOut`
means the loop was still running after that many iterations.
Mirrors the source exactly: NULL pool returns NULL; an `IS_ERR` pool
trips `CONNTBL_ASSERT(!IS_ERR(pool))` (line 526); ENOENT returns NULL
and EPIPE returns `ERR_PTR(-EPIPE)`, both after
`CONNTBL_ASSERT(nr_idle_connections == 0)` (line 541); EBUSY takes
`upref`, bumps `nr_waits`, sleeps, drops `upref`, and iterates again
while `timeout >= 0`; a negative remaining timeout leaves the loop and
trips `CONNTBL_ASSERT(timeout == 0)` (line 563). -/
def connection_timed_get_loop (s : Sys) (ip : String) (port : Nat)
    (now_js now : Nat) (timeout : Int) : Nat → Sys × TGRes
  | 0 => (s, TGRes.fuelOut)
  | fuel + 1 =>
    match get_connection_pool s ip port with
    | LookupRes.null => (s, TGRes.nullRet)
    | LookupRes.errptr _ => (s, TGRes.assertFail)
    | LookupRes.found pid =>
      match connection_get s pid now_js now with
      | (s1, GetScanRes.node id) => (s1, TGRes.node id)
      | (s1, GetScanRes.fault) => (s1, TGRes.fault)
      | (s1, GetScanRes.errv e) =>
        if e = -ENOENT || e = -EPIPE then
          match s1.getPool pid with
          | none => (s1, TGRes.fault)
          | some p =>
            if p.nr_idle_connections ≠ 0 then (s1, TGRes.assertFail)
            else if e = -ENOENT then (s1, TGRes.nullRet)
            else (s1, TGRes.errRet (-EPIPE))
        else if e = -EBUSY then
          match s1.getPool pid with
          | none => (s1, TGRes.fault)
          | some p =>
            let s2 := s1.setPool pid { p with upref := p.upref + 1 }
            match s2.getPool pid with
            | none => (s2, TGRes.fault)
            | some p2 =>
              let s3 := s2.setPool pid { p2 with nr_waits := p2.nr_waits + 1 }
              let t2 := wait_no_signal
                (decide (p2.nr_idle_connections > 0)) timeout
              match s3.getPool pid with
              | none => (s3, TGRes.fault)
              | some p3 =>
                let s4 := s3.setPool pid { p3 with upref := p3.upref - 1 }
                if t2 ≥ 0 then
                  connection_timed_get_loop s4 ip port now_js now t2 fuel
                else (s4, TGRes.assertFail)
        else (s1, TGRes.assertFail)              -- default: CONNTBL_ASSERT(0)

/-- Model of `connection_timed_get` (conntable_v2.c:506): stamp the wait start
time and run the loop. -/
def connection_timed_get (s : Sys) (ip : String) (port : Nat)
    (timeout : Int) (now : Nat) (fuel : Nat) : Sys × TGRes :=
  connection_timed_get_loop s ip port now now timeout fuel

/-- First node on a list of ids that the scan of `connection_get` can
lock and find READY: unlocked and in state READY. -/
def firstClaimable (s : Sys) (ids : List Nat) : Option Nat :=
  ids.find? (fun id =>
    match s.getNode id with
    | some n => !n.locked && decide (n.state = ConnState.READY)
    | none => false)

/-- True when no node on the list is currently CONN_LOCKED (the
condition under which the scan's `all paths down` hint survives). -/
def noneLockedB (s : Sys) (ids : List Nat) : Bool :=
  ids.all (fun id =>
    match s.getNode id with
    | some n => !n.locked
    | none => true)

/- Concrete states used by the theorems and their witnesses. -/

def ipGood : String := "10.0.0.1"
def ipBad : String := "localhost"

def sEmpty : Sys := { nodes := [], pools := [], nextPid := 0 }

/-- Heap with one fresh node, id 0, endpoint 10.0.0.1:6379. -/
def sNodeA : Sys := cacheobj_connection_node_init sEmpty 0 ipGood 6379

/-- Heap with one fresh node whose ip is a hostname, not a literal. -/
def sNodeHost : Sys := cacheobj_connection_node_init sEmpty 1 ipBad 80

/-- Heap with two fresh nodes (ids 0, 1) for the same endpoint. -/
def sNodesAB : Sys := cacheobj_connection_node_init sNodeA 1 ipGood 6379

/-- Table state after inserting node 0 into the empty table. -/
def sIns : Sys :=
  (connectionpool_hashtable_insert sNodeA (fun s => s) true true 0).1

/-- State after `timed_get` has claimed node 0 out of `sIns`. -/
def sGot : Sys := (connection_timed_get sIns ipGood 6379 100 50 3).1

/-- Node 0 as it stands inside `sIns`: READY, unlocked, attached. -/
def nodeInserted : ConnNode :=
  { ip := ipGood, port := 6379, state := ConnState.READY, locked := false,
    pool := some 0, now_js := 0, nr_lookups := 0, tot_js_get := 0,
    tot_js_put := 0, tot_js_wait := 0 }

/-- The pool of `sIns`: one connection, one idle. -/
def poolInserted : Pool :=
  { pid := 0, ip := ipGood, port := 6379, key := hashfn ipGood 6379,
    conn_list := [0], nr_connections := 1, nr_idle_connections := 1,
    upref := 0, nr_waits := 0, waiters := 0 }

/-- Node 0 as it stands inside `sGot`: ACTIVE, CONN_LOCKED. -/
def nodeAfterGet : ConnNode :=
  { ip := ipGood, port := 6379, state := ConnState.ACTIVE, locked := true,
    pool := some 0, now_js := 50, nr_lookups := 1, tot_js_get := 0,
    tot_js_put := 0, tot_js_wait := 0 }

/-- The pool of `sGot`: one connection, none idle. -/
def poolAfterGet : Pool := { poolInserted with nr_idle_connections := 0 }

/- C1 scenarios.  Scenario S4 of the spec: insert, mark_retry,
mark_failed; the pool then holds one FAILED unlocked node while
`nr_idle_connections` is still 1. -/

def sRetryS4 : Sys := (cacheobj_connection_node_retry sIns 0).1
def sS4 : Sys := (cacheobj_connection_node_failed sRetryS4 0).1

/- The retry cycle: insert, timed_get, mark_failed, mark_retry,
mark_ready; the node ends READY but `nr_idle_connections` stays 0. -/

def sFailed : Sys := (cacheobj_connection_node_failed sGot 0).1
def sRetried : Sys := (cacheobj_connection_node_retry sFailed 0).1
def sReadied : Sys := (cacheobj_connection_node_ready sRetried 0).1

/-- An ACTIVE node whose CONN_LOCKED bit is held (by some other task). -/
def nodeActive : ConnNode :=
  { ip := ipGood, port := 6379, state := ConnState.ACTIVE, locked := true,
    pool := some 0, now_js := 0, nr_lookups := 0, tot_js_get := 0,
    tot_js_put := 0, tot_js_wait := 0 }

/-- Pool for the C2 scenario, with `nr_waits` a parameter since the
stuck loop keeps incrementing it. -/
def busyPool (w : Nat) : Pool :=
  { pid := 0, ip := ipGood, port := 6379, key := hashfn ipGood 6379,
    conn_list := [0], nr_connections := 1, nr_idle_connections := 0,
    upref := 0, nr_waits := w, waiters := 0 }

/-- System in which the only node of the endpoint's pool is held
CONN_LOCKED by another task and no put ever happens. -/
def sBusyW (w : Nat) : Sys :=
  { nodes := [(0, nodeActive)], pools := [busyPool w], nextPid := 1 }

def sBusy : Sys := sBusyW 0

/-- A concurrent inserter that attaches node 1 (same endpoint as node
0), creating the endpoint's pool; used as the `race` interference of
the C9 scenario. -/
def otherInserter : Sys → Sys :=
  fun s => (connectionpool_hashtable_insert s (fun t => t) true true 1).1

/-- Number of pools linked in the table for one endpoint. -/
def poolsFor (s : Sys) (ip : String) (port : Nat) : Nat :=
  (s.pools.filter (fun p => p.ip = ip && p.port = port)).length

/-! Helper lemmas shared by the claim theorems. -/

/-- Updating the entry of a key that is present makes `find?` on that
key return the updated entry. -/
theorem find?_update (id : Nat) (n : ConnNode) :
    ∀ (l : List (Nat × ConnNode)),
      (l.find? (fun kv => kv.1 = id)).isSome = true →
      ((l.map (fun kv => if kv.1 = id then (id, n) else kv)).find?
        (fun kv => kv.1 = id)) = some (id, n)
  | [], h => by simp [List.find?] at h
  | kv :: t, h => by
    by_cases hk : kv.1 = id
    · simp [List.find?, hk]
    · rw [List.find?_cons_of_neg t (by simpa using hk)] at h
      simp only [List.map_cons, if_neg hk]
      rw [List.find?_cons_of_neg _ (by simpa using hk)]
      exact find?_update id n t h

/-- Reading back a node that `setNode` just stored. -/
theorem getNode_setNode (s : Sys) (id : Nat) (n : ConnNode)
    (h : (s.getNode id).isSome) : (s.setNode id n).getNode id = some n := by
  unfold Sys.getNode Sys.setNode at *
  simp only at *
  rw [find?_update id n s.nodes (by
    rcases hfind : s.nodes.find? (fun kv => kv.1 = id) with _ | kv
    · rw [hfind] at h; simp at h
    · simp [hfind])]
  rfl

/-- One iteration of the stuck `timed_get` loop on the busy pool:
EBUSY, a full sleep that returns 0, and a retry with `nr_waits` one
higher, whatever the remaining timeout was. -/
theorem busy_step (w : Nat) (t : Int) (fuel : Nat) :
    connection_timed_get_loop (sBusyW w) ipGood 6379 50 50 t (fuel + 1) =
    connection_timed_get_loop (sBusyW (w + 1)) ipGood 6379 50 50 0 fuel := rfl

/-- Once the remaining timeout is 0 the loop on the busy pool runs out
of any amount of fuel. -/
theorem busy_loop_out : ∀ (fuel w : Nat),
    (connection_timed_get_loop (sBusyW w) ipGood 6379 50 50 0 fuel).2 =
      TGRes.fuelOut
  | 0, _ => rfl
  | fuel + 1, w => by
    rw [busy_step w 0 fuel]
    exact busy_loop_out fuel (w + 1)

/-- Scan outcome when no node on the list is claimable: the state is
untouched and the error is ENOENT / EPIPE / EBUSY according to the
(original) list emptiness and the surviving all-paths-down hint. -/
theorem scan_no_claimable (s : Sys) (pid : Nat) (p : Pool)
    (hp : s.getPool pid = some p) (js now : Nat) :
    ∀ (ids : List Nat) (apd : Bool),
      (∀ id ∈ ids, (s.getNode id).isSome) →
      firstClaimable s ids = none →
      connection_get_scan s pid ids apd js now =
        (s, if p.conn_list.isEmpty then GetScanRes.errv (-ENOENT)
            else if apd && noneLockedB s ids then GetScanRes.errv (-EPIPE)
            else GetScanRes.errv (-EBUSY))
  | [], apd, _, _ => by
    simp [connection_get_scan, hp, noneLockedB]
  | id :: rest, apd, hres, hfc => by
    obtain ⟨n, hn⟩ : ∃ n, s.getNode id = some n := by
      have := hres id (by simp)
      exact Option.isSome_iff_exists.mp this
    have hfc' : firstClaimable s rest = none ∧
        ((!n.locked && decide (n.state = ConnState.READY)) = false) := by
      unfold firstClaimable at hfc ⊢
      rw [List.find?_cons] at hfc
      split at hfc
      · exact absurd hfc (by simp)
      · refine ⟨hfc, ?_⟩
        rename_i hcond
        rw [hn] at hcond
        simpa using hcond
    have hrest : ∀ i ∈ rest, (s.getNode i).isSome := fun i hi =>
      hres i (List.mem_cons_of_mem _ hi)
    have ih := scan_no_claimable s pid p hp js now rest
    unfold connection_get_scan
    rw [hn]
    by_cases hl : n.locked
    · simp only [conn_trylock, hl, if_true]
      rw [ih false hrest hfc'.1]
      have : noneLockedB s (id :: rest) = false := by
        unfold noneLockedB
        simp [List.all_cons, hn, hl]
      rw [this]
      simp
    · have hnr : ¬(n.state = ConnState.READY) := by
        have := hfc'.2
        simp [hl] at this
        exact this
      simp only [conn_trylock, hl, if_false]
      rw [if_neg hnr]
      rw [ih apd hrest hfc'.1]
      have : noneLockedB s (id :: rest) = noneLockedB s rest := by
        unfold noneLockedB
        simp [List.all_cons, hn, hl]
      rw [this]
      simp

/-- Scan outcome when some node is claimable: the first unlocked READY
node is claimed, independent of the all-paths-down hint. -/
theorem scan_claims (s : Sys) (pid : Nat) (p : Pool)
    (hp : s.getPool pid = some p) (js now : Nat) :
    ∀ (ids : List Nat) (apd : Bool) (id : Nat) (n : ConnNode),
      (∀ i ∈ ids, ∃ m, s.getNode i = some m ∧ m.pool = some pid) →
      firstClaimable s ids = some id →
      s.getNode id = some n →
      connection_get_scan s pid ids apd js now =
        ((s.setNode id
            { n with locked := true, state := ConnState.ACTIVE,
                     tot_js_wait := n.tot_js_wait + (now - js),
                     now_js := now,
                     nr_lookups := n.nr_lookups + 1 }).setPool pid
           { p with nr_idle_connections := p.nr_idle_connections - 1 },
         GetScanRes.node id)
  | [], apd, id, n, _, hfc, _ => by
    simp [firstClaimable] at hfc
  | i :: rest, apd, id, n, hres, hfc, hn => by
    obtain ⟨m, hm, hmp⟩ := hres i (by simp)
    have hrest : ∀ j ∈ rest, ∃ m, s.getNode j = some m ∧ m.pool = some pid :=
      fun j hj => hres j (List.mem_cons_of_mem _ hj)
    unfold firstClaimable at hfc
    rw [List.find?_cons] at hfc
    split at hfc
    · rename_i hcond
      rw [hm] at hcond
      have hid : i = id := by simpa using hfc
      subst hid
      have hmn : m = n := by rw [hm] at hn; exact Option.some.inj hn
      subst hmn
      have hml : m.locked = false := by
        rcases Bool.and_eq_true_iff.mp hcond with ⟨h1, _⟩
        simpa using h1
      have hmr : m.state = ConnState.READY := by
        rcases Bool.and_eq_true_iff.mp hcond with ⟨_, h2⟩
        simpa using h2
      unfold connection_get_scan
      rw [hm]
      simp only [conn_trylock, hml, if_false, hmr, if_true, hmp, hp]
      simp
    · rename_i hcond
      rw [hm] at hcond
      have ih := scan_claims s pid p hp js now rest
      unfold connection_get_scan
      rw [hm]
      by_cases hl : m.locked
      · simp only [conn_trylock, hl, if_true]
        exact ih false id n hrest hfc hn
      · have hnr : ¬(m.state = ConnState.READY) := by
          simp [hl] at hcond
          exact hcond
        simp only [conn_trylock, hl, if_false]
        rw [if_neg hnr]
        exact ih apd id n hrest hfc hn

/-! The claim theorems. -/

/-- C1: the claim says `nr_idle_connections` always equals the number
of READY nodes on the pool's `conn_list`, every transition to or from
READY adjusting the counter.  The code breaks this: `mark_retry` and
`mark_ready` never touch the counter.  First conjunct — after the
spec's own scenario S4 (insert; mark_retry; mark_failed) the pool's
only node is FAILED yet the counter is still 1, and the next
`timed_get` trips the source's own `CONNTBL_ASSERT(nr_idle == 0)`
(conntable_v2.c:541).  Second conjunct — after insert; timed_get;
mark_failed; mark_retry; mark_ready the pool holds one READY node while
the counter is 0. -/
theorem c1_nr_idle_diverges_from_ready_count :
    (connection_timed_get sS4 ipGood 6379 100 50 3).2 = TGRes.assertFail ∧
    (sReadied.getPool 0).map
        (fun p => (sReadied.readyCount p, p.nr_idle_connections)) =
      some (1, 0) := by
  refine ⟨rfl, rfl⟩

/-- C2: the claim says a `timed_get` on a pool whose every node stays
CONN_LOCKED stops retrying once the remaining timeout reaches 0 and
returns the timeout null.  The code's loop condition is
`while (timeout >= 0)` (conntable_v2.c:561), so at remaining timeout 0
it retries forever: with the single node held locked by another task
and no put, the loop exhausts any fuel without returning.  (The only
exits from the loop are a negative remainder — impossible without a
signal — which would then trip `CONNTBL_ASSERT(timeout == 0)`.) -/
theorem c2_timed_get_timeout_never_returns : ∀ fuel : Nat,
    (connection_timed_get sBusy ipGood 6379 10 50 fuel).2 = TGRes.fuelOut
  | 0 => rfl
  | fuel + 1 => by
    show (connection_timed_get_loop (sBusyW 0) ipGood 6379 50 50 10
            (fuel + 1)).2 = _
    rw [busy_step 0 10 fuel]
    exact busy_loop_out fuel 1

/-- C3: the claim says a failed pool allocation makes insert return
ENOMEM (out of memory) or EINVAL (bad literal) and is never treated as
a valid pool.  The code builds the failure value as `ERR_PTR(-err)`
with `err` already negative (conntable_v2.c:226), producing the small
positive pointer 12, which `IS_ERR` at line 321 does not catch: the
OOM insert dereferences the garbage pointer as a pool instead of
returning ENOMEM (first conjunct); the invalid-literal insert never
reaches the allocator — `__get_connection_pool` returns
`ERR_PTR(-EINVAL)`, which is non-NULL, and
`CONNTBL_ASSERT(!IS_ERR(pool))` at line 329 fires instead of EINVAL
being returned (second conjunct). -/
theorem c3_insert_alloc_failure_mishandled :
    (connectionpool_hashtable_insert sNodeA (fun s => s) false true 0).2 =
      OpRes.wildDeref 12 ∧
    (connectionpool_hashtable_insert sNodeHost (fun s => s) true true 1).2 =
      OpRes.assertFail := by
  refine ⟨rfl, rfl⟩

/-- C4: the claim says `timed_get` with a malformed IPv4 literal
returns EINVAL to the caller instead of crashing or asserting.  In the
code `__get_connection_pool` returns `ERR_PTR(-EINVAL)`, which passes
the `if (!pool)` NULL test, and `CONNTBL_ASSERT(!IS_ERR(pool))`
(conntable_v2.c:526) then fires: for every table state, timeout and
time, the call asserts rather than returning EINVAL. -/
theorem c4_timed_get_invalid_ip_asserts (s : Sys) (t : Int)
    (now fuel : Nat) :
    (connection_timed_get s ipBad 80 t now (fuel + 1)).2 =
      TGRes.assertFail := by
  simp [connection_timed_get, connection_timed_get_loop, get_connection_pool,
    ipv4_hash32, show in4_pton_ok ipBad = false from rfl]

/-- C5: the claim says `mark_failed` stores FAILED before releasing
CONN_LOCKED, so no task acquiring the lock in between observes ACTIVE
or RETRY.  The source does the opposite (clear_bit_unlock at
conntable_v2.c:137 precedes the store at line 138): at the intermediate
point `markFailed_afterUnlock`, another task's test_and_set_bit_lock
succeeds (the old bit reads false) and the state it then observes is
still ACTIVE; only `markFailed_afterStore` makes it FAILED. -/
theorem c5_mark_failed_unlocks_before_store :
    (conn_trylock (markFailed_afterUnlock nodeActive)).1 = false ∧
    (conn_trylock (markFailed_afterUnlock nodeActive)).2.state =
      ConnState.ACTIVE ∧
    (markFailed_afterStore nodeActive).state = ConnState.FAILED := by
  refine ⟨rfl, rfl, rfl⟩

/-- C6: the list scan of `connection_get` classifies its outcome
exactly as the claim states: the first node it can lock whose state is
READY is returned with that node set to ACTIVE and CONN_LOCKED held,
the pool's `nr_idle_connections` decremented and the node's
`nr_lookups` incremented; otherwise ENOENT when `conn_list` is empty,
EPIPE when every node was lockable (none CONN_LOCKED) and in a
non-READY state, and EBUSY when at least one node was skipped because
it was already locked. -/
theorem c6_connection_get_classification (s : Sys) (pid : Nat) (p : Pool)
    (js now : Nat) (hp : s.getPool pid = some p)
    (hres : ∀ id ∈ p.conn_list,
      ∃ n, s.getNode id = some n ∧ n.pool = some pid) :
    (p.conn_list = [] →
      connection_get s pid js now = (s, GetScanRes.errv (-ENOENT))) ∧
    (∀ id n, firstClaimable s p.conn_list = some id →
      s.getNode id = some n →
      connection_get s pid js now =
        ((s.setNode id
            { n with locked := true, state := ConnState.ACTIVE,
                     tot_js_wait := n.tot_js_wait + (now - js),
                     now_js := now,
                     nr_lookups := n.nr_lookups + 1 }).setPool pid
           { p with nr_idle_connections := p.nr_idle_connections - 1 },
         GetScanRes.node id)) ∧
    (p.conn_list ≠ [] → firstClaimable s p.conn_list = none →
      (∀ id ∈ p.conn_list, ∀ n, s.getNode id = some n → n.locked = false) →
      connection_get s pid js now = (s, GetScanRes.errv (-EPIPE))) ∧
    (firstClaimable s p.conn_list = none →
      (∃ id ∈ p.conn_list, ∃ n, s.getNode id = some n ∧ n.locked = true) →
      connection_get s pid js now = (s, GetScanRes.errv (-EBUSY))) := by
  have hsome : ∀ id ∈ p.conn_list, (s.getNode id).isSome := by
    intro id hid
    obtain ⟨n, hn, _⟩ := hres id hid
    simp [hn]
  refine ⟨?_, ?_, ?_, ?_⟩
  · intro hempty
    unfold connection_get
    rw [hp]
    show connection_get_scan s pid p.conn_list true js now = _
    rw [hempty]
    unfold connection_get_scan
    simp [hp, hempty]
  · intro id n hfc hn
    unfold connection_get
    rw [hp]
    exact scan_claims s pid p hp js now p.conn_list true id n hres hfc hn
  · intro hne hfc hunlocked
    unfold connection_get
    rw [hp]
    show connection_get_scan s pid p.conn_list true js now = _
    rw [scan_no_claimable s pid p hp js now p.conn_list true hsome hfc]
    have hnl : noneLockedB s p.conn_list = true := by
      unfold noneLockedB
      rw [List.all_eq_true]
      intro id hid
      obtain ⟨n, hn, _⟩ := hres id hid
      rw [hn]
      simpa using hunlocked id hid n hn
    rw [hnl]
    simp [List.isEmpty_iff, hne]
  · intro hfc hlocked
    unfold connection_get
    rw [hp]
    show connection_get_scan s pid p.conn_list true js now = _
    rw [scan_no_claimable s pid p hp js now p.conn_list true hsome hfc]
    obtain ⟨id, hid, n, hn, hl⟩ := hlocked
    have hnl : noneLockedB s p.conn_list = false := by
      unfold noneLockedB
      rw [Bool.eq_false_iff]
      intro hall
      rw [List.all_eq_true] at hall
      have := hall id hid
      rw [hn] at this
      simp [hl] at this
    rw [hnl]
    have hne : ¬p.conn_list.isEmpty := by
      rw [List.isEmpty_iff]
      intro habs
      rw [habs] at hid
      simp at hid
    simp [hne]

/-- C6 witness: on the table `sIns` whose pool holds the single READY
node 0, the scan claims node 0 with the stated updates. -/
theorem c6_connection_get_classification_witness :
    connection_get sIns 0 50 50 =
      ((sIns.setNode 0
          { nodeInserted with locked := true, state := ConnState.ACTIVE,
                              tot_js_wait := nodeInserted.tot_js_wait + (50 - 50),
                              now_js := 50,
                              nr_lookups := nodeInserted.nr_lookups + 1 }).setPool 0
         { poolInserted with
             nr_idle_connections := poolInserted.nr_idle_connections - 1 },
       GetScanRes.node 0) :=
  (c6_connection_get_classification sIns 0 poolInserted 50 50 rfl
    (by
      intro id hid
      have hid0 : id = 0 := by simpa [poolInserted] using hid
      subst hid0
      exact ⟨nodeInserted, rfl, rfl⟩)).2.1 0 nodeInserted rfl rfl

/-- C7: `connection_put` on an ACTIVE node accumulates `now - now_js`
into `tot_js_get` or `tot_js_put` according to `op`, stores READY,
increments the pool's `nr_idle_connections`, clears CONN_LOCKED, and
leaves the pool's `upref` with no net change (`+1` then `-1`); on a
node in any other state it only clears CONN_LOCKED and changes nothing
else. -/
theorem c7_connection_put_spec (s : Sys) (id ppid : Nat) (n : ConnNode)
    (p : Pool) (op : ConnOp) (now : Nat) (hn : s.getNode id = some n) :
    (n.state = ConnState.ACTIVE → n.pool = some ppid →
      s.getPool ppid = some p →
      connection_put s id op now =
        ((s.setNode id
            { n with
              tot_js_get := n.tot_js_get +
                (match op with | ConnOp.GET => now - n.now_js | ConnOp.PUT => 0),
              tot_js_put := n.tot_js_put +
                (match op with | ConnOp.GET => 0 | ConnOp.PUT => now - n.now_js),
              state := ConnState.READY, locked := false }).setPool ppid
           { p with nr_idle_connections := p.nr_idle_connections + 1,
                    upref := p.upref },
         OpRes.ok)) ∧
    (n.state ≠ ConnState.ACTIVE →
      connection_put s id op now = (s.setNode id (conn_unlock n), OpRes.ok)) := by
  constructor
  · intro ha hbp hpp
    simp only [connection_put, hn]
    rw [if_pos ha]
    simp only [hbp, hpp]
    cases op <;>
      · cases n
        cases p
        simp only at hbp
        simp [connection_node_update_jiffies, conn_unlock, hbp]
  · intro ha
    simp only [connection_put, hn]
    rw [if_neg ha]

/-- C7 witness: putting the ACTIVE node of `sGot` with op GET at time
60 accounts 10 ticks to `tot_js_get`, stores READY, unlocks, bumps the
idle count to 1 and leaves `upref` at its old value 0. -/
theorem c7_connection_put_spec_witness :
    connection_put sGot 0 ConnOp.GET 60 =
      ((sGot.setNode 0
          { nodeAfterGet with tot_js_get := 10, state := ConnState.READY,
                              locked := false }).setPool 0
         { poolAfterGet with nr_idle_connections := 1 },
       OpRes.ok) :=
  (c7_connection_put_spec sGot 0 0 nodeAfterGet poolAfterGet ConnOp.GET 60
    rfl).1 rfl rfl rfl

/-- C8: round trip on a fresh table — after inserting node 0, a
`timed_get` with any positive timeout returns exactly node 0 in state
ACTIVE with CONN_LOCKED set; after `put(0, GET)`, a second `timed_get`
for the same endpoint again returns node 0. -/
theorem c8_round_trip (t : Int) (h : 0 < t) :
    (connection_timed_get sIns ipGood 6379 t 50 1).2 = TGRes.node 0 ∧
    (connection_timed_get sIns ipGood 6379 t 50 1).1.getNode 0 =
      some nodeAfterGet ∧
    (connection_put (connection_timed_get sIns ipGood 6379 t 50 1).1 0
        ConnOp.GET 60).2 = OpRes.ok ∧
    (connection_timed_get
        (connection_put (connection_timed_get sIns ipGood 6379 t 50 1).1 0
          ConnOp.GET 60).1 ipGood 6379 t 70 1).2 = TGRes.node 0 := by
  refine ⟨rfl, rfl, rfl, rfl⟩

/-- C8 witness: the round trip at the concrete timeout 100. -/
theorem c8_round_trip_witness :
    (0 : Int) < 100 ∧
    (connection_timed_get sIns ipGood 6379 100 50 1).2 = TGRes.node 0 :=
  ⟨by decide, (c8_round_trip 100 (by decide)).1⟩

/-- C9: the claim says insert re-checks after re-acquiring the write
lock and discards its own allocation, so each endpoint has at most one
pool.  The code re-locks and adds its pool unconditionally
(conntable_v2.c:326-327, no re-lookup): when a concurrent inserter
creates the endpoint's pool during the unlocked allocation window, the
table ends up with two pools for the same endpoint. -/
theorem c9_insert_race_duplicates_pool :
    poolsFor (connectionpool_hashtable_insert sNodesAB otherInserter
        true true 0).1 ipGood 6379 = 2 := rfl

/-- C10: a successful remove claims the node's CONN_LOCKED bit and
never releases it — the removed node is left permanently locked, so a
second remove of the same node fails with EBUSY. -/
theorem c10_remove_leaves_node_locked (s : Sys) (id ppid : Nat)
    (n : ConnNode) (p : Pool) (hn : s.getNode id = some n)
    (hl : n.locked = false) (ha : n.state ≠ ConnState.ACTIVE)
    (hbp : n.pool = some ppid) (hpp : s.getPool ppid = some p) :
    (connectionpool_hashtable_remove s id).2 = OpRes.ok ∧
    (∃ n2, (connectionpool_hashtable_remove s id).1.getNode id = some n2 ∧
      n2.locked = true) ∧
    (connectionpool_hashtable_remove
        (connectionpool_hashtable_remove s id).1 id).2 =
      OpRes.err (-EBUSY) := by
  have hfix : ∀ n2 p2,
      ((s.setNode id n2).setPool ppid p2).getNode id = some n2 := by
    intro n2 p2
    show (s.setNode id n2).getNode id = some n2
    exact getNode_setNode s id n2 (by simp [hn])
  unfold connectionpool_hashtable_remove connection_remove
  rw [hn]
  simp only [conn_trylock, hl]
  rw [if_neg (by simp)]
  simp only [hbp, hpp]
  rw [if_neg (by simpa using ha)]
  by_cases hr : n.state = ConnState.READY
  · rw [if_pos (by simpa using hr)]
    refine ⟨rfl, ⟨_, hfix _ _, rfl⟩, ?_⟩
    rw [hfix _ _]
    simp [conn_trylock]
  · rw [if_neg (by simpa using hr)]
    refine ⟨rfl, ⟨_, hfix _ _, rfl⟩, ?_⟩
    rw [hfix _ _]
    simp [conn_trylock]

/-- C10 witness: removing the READY node of `sIns` succeeds, leaves it
CONN_LOCKED, and a second remove of the same node returns EBUSY. -/
theorem c10_remove_leaves_node_locked_witness :
    (connectionpool_hashtable_remove sIns 0).2 = OpRes.ok ∧
    (∃ n2, (connectionpool_hashtable_remove sIns 0).1.getNode 0 = some n2 ∧
      n2.locked = true) ∧
    (connectionpool_hashtable_remove
        (connectionpool_hashtable_remove sIns 0).1 0).2 =
      OpRes.err (-EBUSY) :=
  c10_remove_leaves_node_locked sIns 0 0 nodeInserted poolInserted rfl rfl
    (by decide) rfl rfl

end Conntable
